import Mathlib

/-!
Verification development for the disclaude message relay.

This file shallowly embeds the session-persistence layer
(`SessionManager` in `feishu_bot.py`), the completion client
(`AgentClient.query_stream` in `agent_client.py`), the Feishu command
and message handlers (`FeishuBot` in `feishu_bot.py`), the Lark text
escaping (`_escape_lark_text`), and the Discord error handler
(`DiscordBot.on_command_error` in `discord_bot.py`).

Modelling conventions:
* Python `dict[str, str]` becomes an insertion-ordered association list
  `List (String × String)` with no duplicate keys; assignment replaces
  in place, deletion filters, lookup takes the first match.
* The persisted JSON file is modelled at the level of parsed JSON
  values (`JValue`): the file is absent, malformed (text that fails
  `json.load`), or holds a parsed value.  JSON numbers are restricted
  to integers in this embedding.
* External effects (directory creation, disk writes, the provider API
  call) are environment parameters: a `FS` record carries the file
  state, whether raw disk writes succeed, and the content a failed
  write leaves in the already-truncated file; the provider call is an
  `Except String String` input.
* Python exceptions become `Except`; a `try/except` that swallows the
  exception becomes a `match` whose error branch returns the fallback.
-/

/-- Parsed JSON values, as produced by Python json.load.  Numbers are
restricted to integers in this embedding. -/
inductive JValue where
  | str (s : String)
  | num (n : Int)
  | bool (b : Bool)
  | null
  | arr (xs : List JValue)
  | obj (kvs : List (String × JValue))


mutual

/-- Python repr of a JSON-decoded value (the string quote choice and
inner escaping of Python repr are elided; no claim depends on them). -/
def pyRepr : JValue → String
  | JValue.str s => "\x27" ++ s ++ "\x27"
  | JValue.num n => toString n
  | JValue.bool b => if b then "True" else "False"
  | JValue.null => "None"
  | JValue.arr xs => "[" ++ pyReprItems xs ++ "]"
  | JValue.obj kvs => "\x7b" ++ pyReprPairs kvs ++ "\x7d"

/-- Comma-separated reprs of list items. -/
def pyReprItems : List JValue → String
  | [] => ""
  | [x] => pyRepr x
  | x :: xs => pyRepr x ++ ", " ++ pyReprItems xs

/-- Comma-separated reprs of dict entries. -/
def pyReprPairs : List (String × JValue) → String
  | [] => ""
  | [(k, v)] => "\x27" ++ k ++ "\x27: " ++ pyRepr v
  | (k, v) :: xs => "\x27" ++ k ++ "\x27: " ++ pyRepr v ++ ", " ++ pyReprPairs xs

end

/-- Python str() of a JSON-decoded value: a string maps to itself,
everything else to its repr. -/
def pyStr : JValue → String
  | JValue.str s => s
  | v => pyRepr v

/-- Lookup in an insertion-ordered dict, modelling Python
dict.get: the value at the key, or none. -/
def dictGet : List (String × String) → String → Option String
  | [], _ => none
  | p :: ps, k => if p.1 = k then some p.2 else dictGet ps k

/-- Python dict assignment d[k] = v: replace in place when the key is
present, otherwise append at the end (insertion order preserved). -/
def dictSet (m : List (String × String)) (k v : String) : List (String × String) :=
  if (dictGet m k).isSome then
    m.map (fun p => if p.1 = k then (k, v) else p)
  else
    m ++ [(k, v)]

/-- Python del d[k]: drop the entry with that key. -/
def dictErase (m : List (String × String)) (k : String) : List (String × String) :=
  m.filter (fun p => decide (p.1 ≠ k))

/-- Rebuild a dict from a key-value sequence by repeated assignment
(last occurrence of a key wins), as json.load and a dict
comprehension both do. -/
def buildDict (l : List (String × String)) : List (String × String) :=
  l.foldl (fun m p => dictSet m p.1 p.2) []

/-- The state of the session-persistence file on disk. -/
inductive FileState where
  | absent
  | malformed
  | parsed (j : JValue)


/-- External filesystem environment: the session file's state,
whether raw disk writes currently succeed, and — because
open(path, w) truncates the file before json.dump runs — the content
the file is left holding when a write fails.  That content is
environment-chosen (truncated empty, a partial prefix of the dump, or
even the complete document when only the final close fails): the code
guarantees nothing about it. -/
structure FS where
  file : FileState
  writeOk : Bool
  failedWriteFile : FileState


/-- SessionManager: in-memory chat-to-session mapping plus the
persistence path (fields `_sessions` and `_persistence_path`). -/
structure SessionManager where
  sessions : List (String × String)
  path : String


/-- SessionManager.__init__: empty mapping at the given path. -/
def SessionManager.init (persistence_path : String) : SessionManager :=
  { sessions := [], path := persistence_path }

/-- Prefix of the path up to and including the final slash (empty when
the path has no slash), as in posixpath.dirname. -/
def dirnameHead (l : List Char) : List Char :=
  (l.reverse.dropWhile (fun c => c ≠ '/')).reverse

/-- posixpath.dirname on character lists: the head up to the last
slash, with trailing slashes stripped unless the head is all
slashes. -/
def dirnameList (l : List Char) : List Char :=
  let head := dirnameHead l
  if head ≠ [] ∧ ¬ head.all (fun c => c = '/') then
    (head.reverse.dropWhile (fun c => c = '/')).reverse
  else
    head

/-- os.path.dirname for POSIX paths. -/
def dirname (p : String) : String :=
  ⟨dirnameList p.data⟩

/-- Serialization of the session mapping as the JSON object
json.dump writes. -/
def sessionsToJson (m : List (String × String)) : JValue :=
  JValue.obj (m.map (fun p => (p.1, JValue.str p.2)))

/-- Body of the try block of SessionManager.save_to_file.  The error
payload carries the filesystem the failed attempt leaves behind:
os.makedirs(os.path.dirname(path)) raises on an empty dirname before
the file is even opened, so the file is untouched; a dump rejected by
the disk happens after open(path, w) has already truncated the file,
so the file is left with the environment-chosen failed-write content;
otherwise the file now holds the serialized mapping. -/
def save_attempt (sm : SessionManager) (fs : FS) : Except (String × FS) FS :=
  if dirname sm.path = "" then
    Except.error ("makedirs: no such file or directory", fs)
  else if fs.writeOk = false then
    Except.error ("write failed", { fs with file := fs.failedWriteFile })
  else
    Except.ok { fs with file := FileState.parsed (sessionsToJson sm.sessions) }

/-- SessionManager.save_to_file: the try body with every exception
caught and logged as a warning, leaving the filesystem exactly as the
attempt — successful or failed — left it. -/
def save_to_file (sm : SessionManager) (fs : FS) : FS :=
  match save_attempt sm fs with
  | Except.ok fs2 => fs2
  | Except.error (_, fs2) => fs2

/-- SessionManager.load_from_file: a missing file is skipped (mapping
untouched); a parsed top-level object is rebuilt entry by entry with
keys and values passed through str(); any exception (json parse
failure, or .items() on a non-object) is caught and the mapping reset
to empty. -/
def load_from_file (sm : SessionManager) (fs : FS) : SessionManager :=
  match fs.file with
  | FileState.absent => sm
  | FileState.malformed => { sm with sessions := [] }
  | FileState.parsed (JValue.obj kvs) =>
      { sm with sessions := buildDict (kvs.map (fun p => (p.1, pyStr p.2))) }
  | FileState.parsed _ => { sm with sessions := [] }

/-- SessionManager.get_session_id: dict.get on the mapping. -/
def get_session_id (sm : SessionManager) (chat_id : String) : Option String :=
  dictGet sm.sessions chat_id

/-- SessionManager.set_session_id: assign in memory, then
save_to_file (whose failures are swallowed, so this always returns
normally). -/
def set_session_id (sm : SessionManager) (fs : FS) (chat_id session_id : String) :
    SessionManager × FS :=
  let sm2 := { sm with sessions := dictSet sm.sessions chat_id session_id }
  (sm2, save_to_file sm2 fs)

/-- SessionManager.clear_session: delete the key and save only when
the key is present; otherwise do nothing at all. -/
def clear_session (sm : SessionManager) (fs : FS) (chat_id : String) :
    SessionManager × FS :=
  if (dictGet sm.sessions chat_id).isSome then
    let sm2 := { sm with sessions := dictErase sm.sessions chat_id }
    (sm2, save_to_file sm2 fs)
  else
    (sm, fs)

/-- The message object AgentClient.query_stream yields: a bare record
with a content attribute holding the reply text. -/
structure Message where
  content : String

/-- AgentClient.query_stream as the finite sequence of messages one
call yields.  The api argument is the outcome of the try body (the
messages.create round trip plus response.content[0].text extraction):
on success the text, on any exception its message.  The except branch
yields an error-tagged message through the same channel. -/
def query_stream (prompt : String) (session_id : Option String)
    (api : Except String String) : List Message :=
  match prompt, session_id, api with
  | _, _, Except.ok text => [{ content := text }]
  | _, _, Except.error e => [{ content := "Error: " ++ e }]

/-- FeishuBot._extract_text on the messages query_stream yields: the
content is a plain string, returned as is. -/
def extract_text (m : Message) : String :=
  m.content

/-- Observable outbound effects of one inbound turn: messages handed
to the Feishu send API, and invocations of the completion client. -/
inductive BotAction where
  | sendMessage (chat_id text : String)
  | agentQuery (prompt : String) (session_id : Option String)

/-- Whether an action is an invocation of the completion client. -/
def BotAction.isAgentQuery : BotAction → Bool
  | BotAction.agentQuery _ _ => true
  | _ => false

/-- Session-store operations a turn performs, in order. -/
inductive SessionOp where
  | get (chat_id : String)
  | set (chat_id session_id : String)
  | clear (chat_id : String)

/-- Whether a session-store operation is a set. -/
def SessionOp.isSet : SessionOp → Bool
  | SessionOp.set _ _ => true
  | _ => false

/-- Result of handling one inbound turn: updated session manager and
filesystem, outbound actions, and the session-store operations
performed. -/
structure TurnResult where
  sm : SessionManager
  fs : FS
  actions : List BotAction
  sessionOps : List SessionOp

/-- The /help reply text of FeishuBot._handle_command. -/
def helpText : String :=
  "Disclaude Bot\n\nCommands:\n/reset - Clear session\n/status - Show status\n/help - Show this help\n\nJust send a message to interact with agent."

/-- The /status reply text: model name and whether a session id is
present for the chat. -/
def statusText (model : String) (session_id : Option String) : String :=
  "Model: " ++ model ++ "\nSession: " ++ (if session_id.isSome then "Active" else "None")

/-- FeishuBot._handle_command: dispatch on the exact command text;
unrecognized commands get an explicit reply. -/
def handle_command (model : String) (sm : SessionManager) (fs : FS)
    (chat_id text : String) : TurnResult :=
  if text = "/reset" ∨ text = "/clear" then
    let r := clear_session sm fs chat_id
    { sm := r.1, fs := r.2,
      actions := [BotAction.sendMessage chat_id "Session cleared."],
      sessionOps := [SessionOp.clear chat_id] }
  else if text = "/status" then
    let sid := get_session_id sm chat_id
    { sm := sm, fs := fs,
      actions := [BotAction.sendMessage chat_id (statusText model sid)],
      sessionOps := [SessionOp.get chat_id] }
  else if text = "/help" then
    { sm := sm, fs := fs,
      actions := [BotAction.sendMessage chat_id helpText],
      sessionOps := [] }
  else
    { sm := sm, fs := fs,
      actions := [BotAction.sendMessage chat_id ("Unknown command: " ++ text)],
      sessionOps := [] }

/-- FeishuBot._process_agent_message: send a Processing notice, read
the stored session id, stream the agent reply (one message),
accumulate its extracted text, and send it when non-empty.  The
session manager and filesystem are returned untouched: this path
performs no session-store mutation. -/
def process_agent_message (sm : SessionManager) (fs : FS)
    (chat_id prompt : String) (api : Except String String) : TurnResult :=
  let sid := get_session_id sm chat_id
  let msgs := query_stream prompt sid api
  let response_text := (msgs.map extract_text).foldl (fun a b => a ++ b) ""
  { sm := sm, fs := fs,
    actions := [BotAction.sendMessage chat_id "Processing...",
                BotAction.agentQuery prompt sid] ++
               (if response_text ≠ "" then
                  [BotAction.sendMessage chat_id response_text]
                else []),
    sessionOps := [SessionOp.get chat_id] }

/-- Python str.startswith: the needle is an exact leading character
sequence of the text. -/
def startswith (text pre : String) : Bool :=
  decide (text.data.take pre.data.length = pre.data)

/-- The dispatch in FeishuBot's message-receive handler for a
non-empty stripped text: a leading slash routes to the command
handler, anything else to the agent path. -/
def handle_text (model : String) (sm : SessionManager) (fs : FS)
    (chat_id text : String) (api : Except String String) : TurnResult :=
  if startswith text "/" then
    handle_command model sm fs chat_id text
  else
    process_agent_message sm fs chat_id text api

/-- The command-framework errors DiscordBot.on_command_error
distinguishes. -/
inductive DiscordError where
  | commandNotFound
  | missingRequiredArgument (param : String)
  | other (msg : String)

/-- DiscordBot.on_command_error: CommandNotFound is silently ignored;
a missing argument and any other error get a reply to the invoking
context's channel. -/
def on_command_error (channel : String) (e : DiscordError) : List BotAction :=
  match e with
  | DiscordError.commandNotFound => []
  | DiscordError.missingRequiredArgument p =>
      [BotAction.sendMessage channel ("Missing required argument: " ++ p)]
  | DiscordError.other _ =>
      [BotAction.sendMessage channel "An error occurred while processing that command."]

/-- Python str.replace for a single-character needle: each occurrence
of the needle character is replaced by the given string, left to
right, without rescanning the replacement. -/
def replaceChar (needle : Char) (repl : List Char) : List Char → List Char
  | [] => []
  | c :: cs =>
      if c = needle then repl ++ replaceChar needle repl cs
      else c :: replaceChar needle repl cs

/-- The _escape_lark_text chain on character lists: double
backslashes, then escape double quotes, newlines and carriage
returns, in that order. -/
def escape_lark_text (t : List Char) : List Char :=
  replaceChar '\r' ['\\', 'r']
    (replaceChar '\n' ['\\', 'n']
      (replaceChar '"' ['\\', '"']
        (replaceChar '\\' ['\\', '\\'] t)))

/-- Single-character view of the escaping chain: what one input
character contributes to the escaped output. -/
def escChar (c : Char) : List Char :=
  if c = '\\' then ['\\', '\\']
  else if c = '"' then ['\\', '"']
  else if c = '\n' then ['\\', 'n']
  else if c = '\r' then ['\\', 'r']
  else [c]

/-- The nine fixed characters opening the payload object: a brace,
then the quoted key text, a colon, and the value's opening quote. -/
def larkPrefix : List Char :=
  ['\x7b', '"', 't', 'e', 'x', 't', '"', ':', '"']

/-- The outbound Lark content payload FeishuBot._send_message builds
around the escaped text. -/
def lark_payload (t : List Char) : List Char :=
  larkPrefix ++ (escape_lark_text t ++ ['"', '\x7d'])

/-- JSON string escape decoding for the short escapes (the uXXXX form
is not needed to read the payloads the bot emits). -/
def escDecode (e : Char) : Option Char :=
  if e = '"' then some '"'
  else if e = '\\' then some '\\'
  else if e = '/' then some '/'
  else if e = 'n' then some '\n'
  else if e = 'r' then some '\r'
  else if e = 't' then some '\t'
  else if e = 'b' then some (Char.ofNat 8)
  else if e = 'f' then some (Char.ofNat 12)
  else none

/-- Parse the body of a JSON string literal (the opening quote already
consumed): returns the decoded characters and the input after the
closing quote.  Unescaped control characters below U+0020 are
rejected, as JSON requires. -/
def parseJsonStringBody : List Char → Option (List Char × List Char)
  | [] => none
  | c :: rest =>
      if c = '"' then some ([], rest)
      else if c = '\\' then
        match rest with
        | [] => none
        | e :: rest2 =>
            match escDecode e with
            | none => none
            | some d =>
                match parseJsonStringBody rest2 with
                | none => none
                | some (s, r) => some (d :: s, r)
      else if 32 ≤ c.toNat then
        match parseJsonStringBody rest with
        | none => none
        | some (s, r) => some (c :: s, r)
      else none

/-- Parse the exact JSON object shape the bot emits: an object with
the single key text mapping to a JSON string, no whitespace, closed
by the final brace.  Returns the decoded text field. -/
def parseLarkPayload (s : List Char) : Option (List Char) :=
  if s.take 9 = larkPrefix then
    match parseJsonStringBody (s.drop 9) with
    | some (t, tail) => if tail = ['\x7d'] then some t else none
    | none => none
  else none

/-- A character the C9 hypothesis admits: printable (not a control
character below U+0020), or one of the two permitted control
characters newline and carriage return. -/
def allowedLarkChar (c : Char) : Prop :=
  32 ≤ c.toNat ∨ c = '\n' ∨ c = '\r'

/-- Lookup misses exactly the keys not present in the dict. -/
theorem dictGet_eq_none_iff (m : List (String × String)) (k : String) :
    dictGet m k = none ↔ k ∉ m.map Prod.fst := by
  induction m with
  | nil => simp [dictGet]
  | cons p ps ih =>
      by_cases h : p.1 = k
      · simp [dictGet, h]
      · rw [List.map_cons, List.mem_cons, not_or]
        simp only [dictGet, h, if_false]
        rw [ih]
        constructor
        · intro hn
          exact ⟨fun hk => h hk.symm, hn⟩
        · intro hn
          exact hn.2

/-- Assigning a key and then looking it up returns the assigned
value. -/
theorem dictGet_dictSet_self (m : List (String × String)) (k v : String) :
    dictGet (dictSet m k v) k = some v := by
  unfold dictSet
  by_cases h : (dictGet m k).isSome
  · simp only [h, if_true]
    induction m with
    | nil => simp [dictGet] at h
    | cons p ps ih =>
        by_cases hp : p.1 = k
        · simp [dictGet, hp]
        · simp only [dictGet, hp, if_false] at h
          simpa [dictGet, hp] using ih h
  · simp only [h, if_false]
    induction m with
    | nil => simp [dictGet]
    | cons p ps ih =>
        by_cases hp : p.1 = k
        · simp [dictGet, hp] at h
        · simp only [dictGet, hp, if_false] at h ⊢
          simpa [dictGet, hp] using ih h

/-- Erasing a key removes it from lookup. -/
theorem dictGet_dictErase_self (m : List (String × String)) (k : String) :
    dictGet (dictErase m k) k = none := by
  induction m with
  | nil => simp [dictErase, dictGet]
  | cons p ps ih =>
      by_cases hp : p.1 = k
      · simpa [dictErase, hp] using ih
      · simpa [dictErase, dictGet, hp] using ih

/-- Erasing an absent key leaves the dict unchanged. -/
theorem dictErase_of_absent (m : List (String × String)) (k : String)
    (h : dictGet m k = none) : dictErase m k = m := by
  induction m with
  | nil => rfl
  | cons p ps ih =>
      by_cases hp : p.1 = k
      · simp [dictGet, hp] at h
      · simp only [dictGet, hp, if_false] at h
        simp [dictErase, hp] at ih ⊢
        exact ih h

/-- Assigning an absent key appends it. -/
theorem dictSet_of_absent (m : List (String × String)) (k v : String)
    (h : dictGet m k = none) : dictSet m k v = m ++ [(k, v)] := by
  simp [dictSet, h]

/-- Assignment preserves distinctness of keys. -/
theorem dictSet_keys_nodup (m : List (String × String)) (k v : String)
    (h : (m.map Prod.fst).Nodup) : ((dictSet m k v).map Prod.fst).Nodup := by
  unfold dictSet
  by_cases hs : (dictGet m k).isSome
  · simp only [hs, if_true]
    have : (m.map (fun p => if p.1 = k then (k, v) else p)).map Prod.fst
        = m.map Prod.fst := by
      rw [List.map_map]
      apply List.map_congr_left
      intro p _
      by_cases hp : p.1 = k
      · simp [hp]
      · simp [hp]
    rwa [this]
  · simp only [hs, if_false]
    have hk : k ∉ m.map Prod.fst := by
      rw [← dictGet_eq_none_iff]
      cases hg : dictGet m k with
      | none => rfl
      | some w => rw [hg] at hs; simp at hs
    simp [List.nodup_append, h, hk]

/-- Folding assignments of a key-distinct list over an accumulator
with disjoint keys appends the list. -/
theorem foldl_dictSet_append (l acc : List (String × String))
    (h : ((acc ++ l).map Prod.fst).Nodup) :
    l.foldl (fun m p => dictSet m p.1 p.2) acc = acc ++ l := by
  induction l generalizing acc with
  | nil => simp
  | cons p l ih =>
      have habs : dictGet acc p.1 = none := by
        rw [dictGet_eq_none_iff]
        intro hmem
        have : p.1 ∈ (p :: l).map Prod.fst := by simp
        rw [List.map_append, List.nodup_append] at h
        exact h.2.2 hmem this
      have hstep : dictSet acc p.1 p.2 = acc ++ [p] := by
        rw [dictSet_of_absent acc p.1 p.2 habs]
      have h2 : (((acc ++ [p]) ++ l).map Prod.fst).Nodup := by
        simpa using h
      calc (p :: l).foldl (fun m q => dictSet m q.1 q.2) acc
          = l.foldl (fun m q => dictSet m q.1 q.2) (dictSet acc p.1 p.2) := rfl
        _ = l.foldl (fun m q => dictSet m q.1 q.2) (acc ++ [p]) := by rw [hstep]
        _ = (acc ++ [p]) ++ l := ih (acc ++ [p]) h2
        _ = acc ++ p :: l := by simp

/-- Rebuilding a key-distinct dict by repeated assignment returns the
same dict. -/
theorem buildDict_self (m : List (String × String))
    (h : (m.map Prod.fst).Nodup) : buildDict m = m := by
  have := foldl_dictSet_append m [] (by simpa using h)
  simpa [buildDict] using this

/-- Serializing a mapping and passing every entry back through str()
is the identity on string-to-string mappings. -/
theorem sessionsToJson_entries (m : List (String × String)) :
    (m.map (fun p => (p.1, JValue.str p.2))).map (fun p => (p.1, pyStr p.2)) = m := by
  rw [List.map_map]
  have : ((fun p : String × JValue => (p.1, pyStr p.2)) ∘
      (fun p : String × String => (p.1, JValue.str p.2))) = id :=
    funext fun p => rfl
  rw [this, List.map_id]

/-- Single-character replacement distributes over append. -/
theorem replaceChar_append (n : Char) (r : List Char) (a b : List Char) :
    replaceChar n r (a ++ b) = replaceChar n r a ++ replaceChar n r b := by
  induction a with
  | nil => rfl
  | cons c cs ih =>
      by_cases h : c = n <;> simp [replaceChar, h, ih]

/-- The four chained replaces act independently on each character. -/
theorem escape_lark_text_cons (c : Char) (t : List Char) :
    escape_lark_text (c :: t) = escChar c ++ escape_lark_text t := by
  by_cases h1 : c = '\\'
  · subst h1
    simp +decide [escape_lark_text, replaceChar, replaceChar_append, escChar]
  · by_cases h2 : c = '"'
    · subst h2
      simp +decide [escape_lark_text, replaceChar, replaceChar_append, escChar]
    · by_cases h3 : c = '\n'
      · subst h3
        simp +decide [escape_lark_text, replaceChar, replaceChar_append, escChar]
      · by_cases h4 : c = '\r'
        · subst h4
          simp +decide [escape_lark_text, replaceChar, replaceChar_append, escChar]
        · simp [escape_lark_text, replaceChar, escChar, h1, h2, h3, h4]

/-- Decoding a JSON string literal body built from escaped allowed
text recovers the text and stops at the closing quote. -/
theorem parse_escaped_body (t : List Char) :
    ∀ rest : List Char, (∀ c ∈ t, allowedLarkChar c) →
      parseJsonStringBody (escape_lark_text t ++ '"' :: rest) = some (t, rest) := by
  induction t with
  | nil =>
      intro rest _
      rw [show escape_lark_text [] = [] from rfl, List.nil_append,
        parseJsonStringBody.eq_def]
      simp
  | cons c cs ih =>
      intro rest h
      have hc : allowedLarkChar c := h c (by simp)
      have hcs : ∀ x ∈ cs, allowedLarkChar x := fun x hx => h x (by simp [hx])
      have htail := ih rest hcs
      rw [escape_lark_text_cons, List.append_assoc]
      by_cases h1 : c = '\\'
      · subst h1
        rw [show escChar '\\' = ['\\', '\\'] from rfl]
        simp only [List.cons_append, List.nil_append]
        rw [parseJsonStringBody.eq_def]
        simp +decide [escDecode, htail]
      · by_cases h2 : c = '"'
        · subst h2
          rw [show escChar '"' = ['\\', '"'] from rfl]
          simp only [List.cons_append, List.nil_append]
          rw [parseJsonStringBody.eq_def]
          simp +decide [escDecode, htail]
        · by_cases h3 : c = '\n'
          · subst h3
            rw [show escChar '\n' = ['\\', 'n'] from rfl]
            simp only [List.cons_append, List.nil_append]
            rw [parseJsonStringBody.eq_def]
            simp +decide [escDecode, htail]
          · by_cases h4 : c = '\r'
            · subst h4
              rw [show escChar '\r' = ['\\', 'r'] from rfl]
              simp only [List.cons_append, List.nil_append]
              rw [parseJsonStringBody.eq_def]
              simp +decide [escDecode, htail]
            · have h32 : 32 ≤ c.toNat := by
                rcases hc with h32 | hn | hr
                · exact h32
                · exact absurd hn h3
                · exact absurd hr h4
              rw [show escChar c = [c] from by simp [escChar, h1, h2, h3, h4]]
              simp only [List.cons_append, List.nil_append]
              rw [parseJsonStringBody.eq_def]
              simp [h1, h2, h32, htail]

/-- Deciding whether a character is admitted by the C9 hypothesis. -/
instance (c : Char) : Decidable (allowedLarkChar c) := by
  unfold allowedLarkChar
  infer_instance

/-- C9: for every text containing no control characters other than
newline and carriage return, the outbound payload built by
FeishuBot._send_message around _escape_lark_text is a well-formed
JSON object whose text field parses back to exactly the original
text: the escaping of backslash, double quote, newline and carriage
return round-trips and the text cannot break out of the JSON
string. -/
theorem C9_escape_payload_roundtrip (t : List Char)
    (h : ∀ c ∈ t, allowedLarkChar c) :
    parseLarkPayload (lark_payload t) = some t := by
  have hb := parse_escaped_body t ['\x7d'] h
  have htake : (lark_payload t).take 9 = larkPrefix := by
    rw [lark_payload, show (9 : Nat) = larkPrefix.length from rfl, List.take_left]
  have hdrop : (lark_payload t).drop 9 = escape_lark_text t ++ '"' :: ['\x7d'] := by
    rw [lark_payload, show (9 : Nat) = larkPrefix.length from rfl, List.drop_left]
  unfold parseLarkPayload
  rw [htake, hdrop, hb]
  simp

/-- Witness for C9 at a text exercising all four escaped characters. -/
theorem C9_escape_payload_roundtrip_witness :
    (∀ c ∈ ['a', '"', '\\', '\n', '\r', 'x'], allowedLarkChar c) ∧
    parseLarkPayload (lark_payload ['a', '"', '\\', '\n', '\r', 'x']) =
      some ['a', '"', '\\', '\n', '\r', 'x'] := by
  refine ⟨by decide, ?_⟩
  exact C9_escape_payload_roundtrip ['a', '"', '\\', '\n', '\r', 'x'] (by decide)

/-- C3: query_stream yields exactly one message per call, never zero
and never more, and a failure of the underlying call is converted
into a message through the same channel whose content carries the
failure description prefixed with Error, never an exception. -/
theorem C3_query_stream_exactly_one (prompt : String) (session_id : Option String)
    (api : Except String String) :
    (query_stream prompt session_id api).length = 1 ∧
    (∀ text, api = Except.ok text →
      query_stream prompt session_id api = [{ content := text }]) ∧
    (∀ e, api = Except.error e →
      query_stream prompt session_id api = [{ content := "Error: " ++ e }]) := by
  cases api with
  | ok text =>
      refine ⟨rfl, ?_, ?_⟩
      · intro t ht
        cases ht
        rfl
      · intro e he
        cases he
  | error e =>
      refine ⟨rfl, ?_, ?_⟩
      · intro t ht
        cases ht
      · intro e2 he
        cases he
        rfl

/-- Witness for C3 at a concrete failing call. -/
theorem C3_query_stream_exactly_one_witness :
    (query_stream "p" none (Except.error "boom")).length = 1 ∧
    query_stream "p" none (Except.error "boom") = [{ content := "Error: " ++ "boom" }] := by
  have h := C3_query_stream_exactly_one "p" none (Except.error "boom")
  exact ⟨h.1, h.2.2 "boom" rfl⟩

/-- C2 counterexample: at the path sessions.json the persist step of
set_session_id fails (the try body raises), yet the call returns
normally with the in-memory value set and no IOError signalled to the
caller — refuting that set signals an IOError to its caller and
returns success exactly when the persist succeeded. -/
theorem C2_counterexample :
    save_attempt ⟨[("c", "s")], "sessions.json"⟩ ⟨FileState.absent, true, FileState.malformed⟩ =
      Except.error ("makedirs: no such file or directory",
        ⟨FileState.absent, true, FileState.malformed⟩) ∧
    set_session_id ⟨[], "sessions.json"⟩ ⟨FileState.absent, true, FileState.malformed⟩ "c" "s" =
      (⟨[("c", "s")], "sessions.json"⟩, ⟨FileState.absent, true, FileState.malformed⟩) :=
  ⟨rfl, rfl⟩

/-- C2 amended: when persisting fails during set_session_id the
exception is caught and logged inside save_to_file, the call returns
normally with no IOError signalled, and the in-memory mapping
reflects the new value.  Nothing is guaranteed about the on-disk
file: the call leaves it exactly as the failed attempt did — which
for a failure during the dump means the truncated or partially
written content, since open with mode w truncates before json.dump
runs. -/
theorem C2_amended_set_swallows_persist_failure (sm : SessionManager) (fs : FS)
    (chat_id session_id e : String) (fs2 : FS)
    (hfail : save_attempt { sm with sessions := dictSet sm.sessions chat_id session_id } fs
      = Except.error (e, fs2)) :
    set_session_id sm fs chat_id session_id =
      ({ sm with sessions := dictSet sm.sessions chat_id session_id }, fs2) := by
  simp only [set_session_id, save_to_file]
  rw [hfail]

/-- Witness for the amended C2 at a concrete dump failure: the disk
rejects the write after open has truncated the previously valid file,
leaving it malformed; set_session_id still returns normally with the
mapping updated and no error. -/
theorem C2_amended_witness :
    save_attempt ⟨dictSet [] "c" "s", "./sessions.json"⟩
        ⟨FileState.parsed (sessionsToJson [("old", "o")]), false, FileState.malformed⟩ =
      Except.error ("write failed",
        ⟨FileState.malformed, false, FileState.malformed⟩) ∧
    set_session_id ⟨[], "./sessions.json"⟩
        ⟨FileState.parsed (sessionsToJson [("old", "o")]), false, FileState.malformed⟩ "c" "s" =
      (⟨dictSet [] "c" "s", "./sessions.json"⟩,
        ⟨FileState.malformed, false, FileState.malformed⟩) :=
  ⟨rfl, C2_amended_set_swallows_persist_failure ⟨[], "./sessions.json"⟩
    ⟨FileState.parsed (sessionsToJson [("old", "o")]), false, FileState.malformed⟩
    "c" "s" "write failed" ⟨FileState.malformed, false, FileState.malformed⟩ rfl⟩

/-- C1: set_session_id then get_session_id on the same id returns the
session just set, and after a successful flush the persisted file
round-trips: a fresh SessionManager on the same path reconstructs by
load_from_file exactly the mapping that was saved.  The distinct-keys
hypothesis is the invariant every reachable mapping satisfies (the
manager starts empty and every operation preserves it). -/
theorem C1_set_get_and_file_roundtrip (sm : SessionManager) (fs fs2 : FS)
    (chat_id session_id : String)
    (hnd : (sm.sessions.map Prod.fst).Nodup)
    (hflush : save_attempt { sm with sessions := dictSet sm.sessions chat_id session_id } fs
      = Except.ok fs2) :
    get_session_id (set_session_id sm fs chat_id session_id).1 chat_id = some session_id ∧
    (set_session_id sm fs chat_id session_id).2 = fs2 ∧
    (load_from_file (SessionManager.init sm.path) fs2).sessions =
      (set_session_id sm fs chat_id session_id).1.sessions := by
  have hget : get_session_id (set_session_id sm fs chat_id session_id).1 chat_id
      = some session_id := by
    simp only [set_session_id, get_session_id]
    exact dictGet_dictSet_self sm.sessions chat_id session_id
  have hsave : (set_session_id sm fs chat_id session_id).2 = fs2 := by
    simp only [set_session_id, save_to_file]
    rw [hflush]
  have hfs2 : fs2 = { fs with
      file := FileState.parsed (sessionsToJson (dictSet sm.sessions chat_id session_id)) } := by
    unfold save_attempt at hflush
    by_cases h1 : dirname sm.path = ""
    · simp [h1] at hflush
    · by_cases h2 : fs.writeOk = false
      · simp [h1, h2] at hflush
      · have hw : fs.writeOk = true := by
          cases hb : fs.writeOk
          · exact absurd hb h2
          · rfl
        simp [h1, h2] at hflush
        rw [hw]
        exact hflush.symm
  have hload : (load_from_file (SessionManager.init sm.path) fs2).sessions
      = (set_session_id sm fs chat_id session_id).1.sessions := by
    rw [hfs2]
    simp only [load_from_file, sessionsToJson, SessionManager.init, set_session_id]
    rw [sessionsToJson_entries]
    exact buildDict_self _ (dictSet_keys_nodup sm.sessions chat_id session_id hnd)
  exact ⟨hget, hsave, hload⟩

/-- Witness for C1: a concrete flush into an initially absent file
round-trips through a fresh manager. -/
theorem C1_set_get_and_file_roundtrip_witness :
    (([("a", "b")].map Prod.fst).Nodup) ∧
    save_attempt ⟨dictSet [("a", "b")] "c" "s", "./sessions.json"⟩ ⟨FileState.absent, true, FileState.malformed⟩ =
      Except.ok ⟨FileState.parsed (sessionsToJson (dictSet [("a", "b")] "c" "s")), true, FileState.malformed⟩ ∧
    (get_session_id
      (set_session_id ⟨[("a", "b")], "./sessions.json"⟩ ⟨FileState.absent, true, FileState.malformed⟩ "c" "s").1 "c"
        = some "s" ∧
    (set_session_id ⟨[("a", "b")], "./sessions.json"⟩ ⟨FileState.absent, true, FileState.malformed⟩ "c" "s").2 =
      ⟨FileState.parsed (sessionsToJson (dictSet [("a", "b")] "c" "s")), true, FileState.malformed⟩ ∧
    (load_from_file (SessionManager.init "./sessions.json")
        ⟨FileState.parsed (sessionsToJson (dictSet [("a", "b")] "c" "s")), true, FileState.malformed⟩).sessions =
      (set_session_id ⟨[("a", "b")], "./sessions.json"⟩ ⟨FileState.absent, true, FileState.malformed⟩ "c" "s").1.sessions) := by
  refine ⟨by simp, rfl, ?_⟩
  exact C1_set_get_and_file_roundtrip ⟨[("a", "b")], "./sessions.json"⟩
    ⟨FileState.absent, true, FileState.malformed⟩
    ⟨FileState.parsed (sessionsToJson (dictSet [("a", "b")] "c" "s")), true, FileState.malformed⟩
    "c" "s" (by simp) rfl

/-- C6 counterexample: a file holding the JSON object mapping a to
the number 5 is JSON that is not a string-to-string object, yet
load_from_file produces the non-empty mapping a maps-to 5-as-string
rather than an empty mapping. -/
theorem C6_counterexample :
    (load_from_file (SessionManager.init "p")
        ⟨FileState.parsed (JValue.obj [("a", JValue.num 5)]), true, FileState.malformed⟩).sessions = [("a", "5")] ∧
    [("a", "5")] ≠ ([] : List (String × String)) := by
  exact ⟨rfl, by simp⟩

/-- C6 amended: load_from_file never raises; a missing file leaves
the (initially empty) fresh mapping empty; unparseable JSON, or JSON
whose top level is not an object, yields an empty mapping with a
logged warning; a top-level object whose values are not all strings
does not yield an empty mapping but one whose values are coerced
through Python str(). -/
theorem C6_amended_load_total_behavior (path : String) (fs : FS) :
    (fs.file = FileState.absent →
      load_from_file (SessionManager.init path) fs = SessionManager.init path) ∧
    (fs.file = FileState.malformed →
      (load_from_file (SessionManager.init path) fs).sessions = []) ∧
    (∀ j, fs.file = FileState.parsed j → (∀ kvs, j ≠ JValue.obj kvs) →
      (load_from_file (SessionManager.init path) fs).sessions = []) ∧
    (∀ kvs, fs.file = FileState.parsed (JValue.obj kvs) →
      (load_from_file (SessionManager.init path) fs).sessions =
        buildDict (kvs.map (fun p => (p.1, pyStr p.2)))) := by
  obtain ⟨file, w, d⟩ := fs
  refine ⟨?_, ?_, ?_, ?_⟩
  · intro h
    cases h
    rfl
  · intro h
    cases h
    rfl
  · intro j h hno
    cases h
    cases j with
    | str s => rfl
    | num n => rfl
    | bool b => rfl
    | null => rfl
    | arr xs => rfl
    | obj kvs => exact absurd rfl (hno kvs)
  · intro kvs h
    cases h
    rfl

/-- Witness for the amended C6 at a malformed file and at a non-object
top level. -/
theorem C6_amended_witness :
    (load_from_file (SessionManager.init "p") ⟨FileState.malformed, true, FileState.malformed⟩).sessions = [] ∧
    (load_from_file (SessionManager.init "p") ⟨FileState.parsed JValue.null, true, FileState.malformed⟩).sessions = [] := by
  have h1 := C6_amended_load_total_behavior "p" ⟨FileState.malformed, true, FileState.malformed⟩
  have h2 := C6_amended_load_total_behavior "p" ⟨FileState.parsed JValue.null, true, FileState.malformed⟩
  exact ⟨h1.2.1 rfl, h2.2.2.1 JValue.null rfl (fun kvs h => JValue.noConfusion h)⟩

/-- Every branch of the command handler replies with a plain message;
none invokes the completion client. -/
theorem handle_command_no_agentQuery (model : String) (sm : SessionManager) (fs : FS)
    (chat_id text : String) :
    ∀ a ∈ (handle_command model sm fs chat_id text).actions, a.isAgentQuery = false := by
  intro a ha
  unfold handle_command at ha
  by_cases c1 : text = "/reset" ∨ text = "/clear"
  · rw [if_pos c1] at ha
    simp only [List.mem_singleton] at ha
    simp [ha, BotAction.isAgentQuery]
  · rw [if_neg c1] at ha
    by_cases c2 : text = "/status"
    · rw [if_pos c2] at ha
      simp only [List.mem_singleton] at ha
      simp [ha, BotAction.isAgentQuery]
    · rw [if_neg c2] at ha
      by_cases c3 : text = "/help"
      · rw [if_pos c3] at ha
        simp only [List.mem_singleton] at ha
        simp [ha, BotAction.isAgentQuery]
      · rw [if_neg c3] at ha
        simp only [List.mem_singleton] at ha
        simp [ha, BotAction.isAgentQuery]

/-- C4: an inbound /reset for a conversation with an existing session
removes the entry (a subsequent get returns none), sends exactly the
confirmation message, and the completion client is not invoked on
that turn — nor on any other command turn. -/
theorem C4_reset_clears_session (model : String) (sm : SessionManager) (fs : FS)
    (chat_id s_old : String) (api : Except String String)
    (hs : get_session_id sm chat_id = some s_old) :
    get_session_id (handle_text model sm fs chat_id "/reset" api).sm chat_id = none ∧
    (handle_text model sm fs chat_id "/reset" api).actions =
      [BotAction.sendMessage chat_id "Session cleared."] ∧
    (∀ t : String, startswith t "/" = true →
      ∀ a ∈ (handle_text model sm fs chat_id t api).actions, a.isAgentQuery = false) := by
  have hsome : (dictGet sm.sessions chat_id).isSome = true := by
    rw [get_session_id] at hs
    rw [hs]
    rfl
  have hroute : handle_text model sm fs chat_id "/reset" api
      = handle_command model sm fs chat_id "/reset" := by
    unfold handle_text
    rw [if_pos (show startswith "/reset" "/" = true from rfl)]
  have hcmd : handle_command model sm fs chat_id "/reset"
      = { sm := (clear_session sm fs chat_id).1, fs := (clear_session sm fs chat_id).2,
          actions := [BotAction.sendMessage chat_id "Session cleared."],
          sessionOps := [SessionOp.clear chat_id] } := by
    unfold handle_command
    rw [if_pos (Or.inl rfl)]
  have hclear : get_session_id (clear_session sm fs chat_id).1 chat_id = none := by
    unfold clear_session
    rw [if_pos hsome]
    simp only [get_session_id]
    exact dictGet_dictErase_self sm.sessions chat_id
  refine ⟨?_, ?_, ?_⟩
  · rw [hroute, hcmd]
    exact hclear
  · rw [hroute, hcmd]
  · intro t ht a ha
    rw [handle_text, if_pos ht] at ha
    exact handle_command_no_agentQuery model sm fs chat_id t a ha

/-- Witness for C4 at a conversation holding session s1. -/
theorem C4_reset_clears_session_witness :
    get_session_id ⟨[("c1", "s1")], "./sessions.json"⟩ "c1" = some "s1" ∧
    get_session_id
      (handle_text "m" ⟨[("c1", "s1")], "./sessions.json"⟩ ⟨FileState.absent, true, FileState.malformed⟩
        "c1" "/reset" (Except.ok "hi")).sm "c1" = none ∧
    (handle_text "m" ⟨[("c1", "s1")], "./sessions.json"⟩ ⟨FileState.absent, true, FileState.malformed⟩
        "c1" "/reset" (Except.ok "hi")).actions =
      [BotAction.sendMessage "c1" "Session cleared."] := by
  have h := C4_reset_clears_session "m" ⟨[("c1", "s1")], "./sessions.json"⟩
    ⟨FileState.absent, true, FileState.malformed⟩ "c1" "s1" (Except.ok "hi") rfl
  exact ⟨rfl, h.1, h.2.1⟩

/-- C5 counterexample: the /status handler performs exactly one
session-store operation, a get — not a set — refuting that
set_session_id is reachable from the /status query handler (it has no
call site at all in the program). -/
theorem C5_counterexample :
    (handle_command "m" ⟨[("c1", "s1")], "./sessions.json"⟩ ⟨FileState.absent, true, FileState.malformed⟩
        "c1" "/status").sessionOps = [SessionOp.get "c1"] ∧
    SessionOp.isSet (SessionOp.get "c1") = false :=
  ⟨rfl, rfl⟩

/-- C5 amended: no turn — neither the normal message-processing path
nor any command turn, /status included — ever performs a
session-store set; set_session_id has no call site in the program. -/
theorem C5_amended_no_set_anywhere (model : String) (sm : SessionManager) (fs : FS)
    (chat_id text : String) (api : Except String String) :
    ∀ op ∈ (handle_text model sm fs chat_id text api).sessionOps, op.isSet = false := by
  intro op hop
  unfold handle_text at hop
  by_cases hs : startswith text "/" = true
  · rw [if_pos hs] at hop
    unfold handle_command at hop
    by_cases c1 : text = "/reset" ∨ text = "/clear"
    · rw [if_pos c1] at hop
      simp only [List.mem_singleton] at hop
      simp [hop, SessionOp.isSet]
    · rw [if_neg c1] at hop
      by_cases c2 : text = "/status"
      · rw [if_pos c2] at hop
        simp only [List.mem_singleton] at hop
        simp [hop, SessionOp.isSet]
      · rw [if_neg c2] at hop
        by_cases c3 : text = "/help"
        · rw [if_pos c3] at hop
          simp at hop
        · rw [if_neg c3] at hop
          simp at hop
  · rw [if_neg hs] at hop
    unfold process_agent_message at hop
    simp only [List.mem_singleton] at hop
    simp [hop, SessionOp.isSet]

/-- Witness for the amended C5 on a normal turn, whose only
session-store operation is a get. -/
theorem C5_amended_witness :
    SessionOp.isSet (SessionOp.get "c1") = false := by
  have h := C5_amended_no_set_anywhere "m" ⟨[], "./sessions.json"⟩ ⟨FileState.absent, true, FileState.malformed⟩
    "c1" "hello" (Except.ok "hi")
  exact h (SessionOp.get "c1") (List.mem_singleton.mpr rfl)

/-- C7 counterexample: in the Discord bot an unknown command raises
CommandNotFound, which on_command_error silently ignores — the bot
sends no reply at all, refuting that every inbound message starting
with the command prefix but unrecognized gets an explicit
unknown-command reply. -/
theorem C7_counterexample :
    on_command_error "c1" DiscordError.commandNotFound = [] :=
  rfl

/-- C7 amended: the Feishu bot replies to an unrecognized slash
command with an explicit Unknown command message, while the Discord
bot deliberately ignores unknown commands (CommandNotFound yields no
reply). -/
theorem C7_amended_unknown_command (model : String) (sm : SessionManager) (fs : FS)
    (chat_id text : String) (api : Except String String)
    (hpre : startswith text "/" = true)
    (h1 : text ≠ "/reset") (h2 : text ≠ "/clear") (h3 : text ≠ "/status")
    (h4 : text ≠ "/help") :
    (handle_text model sm fs chat_id text api).actions =
      [BotAction.sendMessage chat_id ("Unknown command: " ++ text)] ∧
    on_command_error chat_id DiscordError.commandNotFound = [] := by
  constructor
  · rw [handle_text, if_pos hpre]
    unfold handle_command
    rw [if_neg (by rintro (h | h) <;> [exact h1 h; exact h2 h]), if_neg h3, if_neg h4]
  · rfl

/-- Witness for the amended C7 at the unrecognized command /foo. -/
theorem C7_amended_witness :
    (handle_text "m" ⟨[], "./sessions.json"⟩ ⟨FileState.absent, true, FileState.malformed⟩ "c1" "/foo"
        (Except.ok "hi")).actions =
      [BotAction.sendMessage "c1" ("Unknown command: " ++ "/foo")] ∧
    on_command_error "c1" DiscordError.commandNotFound = [] :=
  C7_amended_unknown_command "m" ⟨[], "./sessions.json"⟩ ⟨FileState.absent, true, FileState.malformed⟩
    "c1" "/foo" (Except.ok "hi") rfl (by decide) (by decide) (by decide) (by decide)

/-- C8: clear_session on an id absent from the mapping is a complete
no-op returning normally — the manager, the filesystem and in
particular the persisted file with all entries for other ids are left
exactly as they were (the code does not even attempt a save). -/
theorem C8_clear_absent_noop (sm : SessionManager) (fs : FS) (chat_id : String)
    (h : get_session_id sm chat_id = none) :
    clear_session sm fs chat_id = (sm, fs) ∧
    (clear_session sm fs chat_id).2.file = fs.file := by
  have hns : (dictGet sm.sessions chat_id).isSome = false := by
    rw [get_session_id] at h
    rw [h]
    rfl
  have hc : clear_session sm fs chat_id = (sm, fs) := by
    unfold clear_session
    rw [if_neg (by rw [hns]; exact Bool.false_ne_true)]
  exact ⟨hc, by rw [hc]⟩

/-- Witness for C8: clearing an absent id leaves another id's entry
in both memory and the persisted file untouched. -/
theorem C8_clear_absent_noop_witness :
    get_session_id ⟨[("other", "s")], "./sessions.json"⟩ "c1" = none ∧
    clear_session ⟨[("other", "s")], "./sessions.json"⟩
        ⟨FileState.parsed (sessionsToJson [("other", "s")]), true, FileState.malformed⟩ "c1" =
      (⟨[("other", "s")], "./sessions.json"⟩,
        ⟨FileState.parsed (sessionsToJson [("other", "s")]), true, FileState.malformed⟩) := by
  have h := C8_clear_absent_noop ⟨[("other", "s")], "./sessions.json"⟩
    ⟨FileState.parsed (sessionsToJson [("other", "s")]), true, FileState.malformed⟩ "c1" rfl
  exact ⟨rfl, h.1⟩

/-- C10: when the persistence path has no directory component,
os.makedirs of the empty dirname raises, so every save_to_file call
fails internally and the failure is swallowed: set_session_id and
clear_session return normally with the in-memory mapping updated, and
nothing is ever written to disk. -/
theorem C10_bare_filename_never_persists (sm : SessionManager) (fs : FS)
    (chat_id session_id : String) (h : dirname sm.path = "") :
    (∃ e, save_attempt sm fs = Except.error e) ∧
    save_to_file sm fs = fs ∧
    set_session_id sm fs chat_id session_id =
      ({ sm with sessions := dictSet sm.sessions chat_id session_id }, fs) ∧
    (clear_session sm fs chat_id).2 = fs ∧
    (clear_session sm fs chat_id).1.sessions = dictErase sm.sessions chat_id := by
  have hsave : ∀ sm2 : SessionManager, sm2.path = sm.path → save_to_file sm2 fs = fs := by
    intro sm2 hp
    unfold save_to_file save_attempt
    rw [hp, if_pos h]
  refine ⟨⟨("makedirs: no such file or directory", fs), ?_⟩, hsave sm rfl, ?_, ?_, ?_⟩
  · unfold save_attempt
    rw [if_pos h]
  · simp only [set_session_id]
    rw [hsave ⟨dictSet sm.sessions chat_id session_id, sm.path⟩ rfl]
  · by_cases hc : (dictGet sm.sessions chat_id).isSome
    · unfold clear_session
      rw [if_pos hc]
      simp only
      exact hsave ⟨dictErase sm.sessions chat_id, sm.path⟩ rfl
    · unfold clear_session
      rw [if_neg hc]
  · by_cases hc : (dictGet sm.sessions chat_id).isSome
    · unfold clear_session
      rw [if_pos hc]
    · unfold clear_session
      rw [if_neg hc]
      have hnone : dictGet sm.sessions chat_id = none := by
        cases hg : dictGet sm.sessions chat_id with
        | none => rfl
        | some w =>
            rw [hg] at hc
            exact absurd rfl hc
      rw [dictErase_of_absent sm.sessions chat_id hnone]

/-- Witness for C10 at the bare filename sessions.json. -/
theorem C10_bare_filename_never_persists_witness :
    dirname "sessions.json" = "" ∧
    save_to_file ⟨[], "sessions.json"⟩ ⟨FileState.absent, true, FileState.malformed⟩ =
      ⟨FileState.absent, true, FileState.malformed⟩ ∧
    set_session_id ⟨[], "sessions.json"⟩ ⟨FileState.absent, true, FileState.malformed⟩ "c" "s" =
      (⟨dictSet [] "c" "s", "sessions.json"⟩, ⟨FileState.absent, true, FileState.malformed⟩) := by
  have h := C10_bare_filename_never_persists ⟨[], "sessions.json"⟩
    ⟨FileState.absent, true, FileState.malformed⟩ "c" "s" rfl
  exact ⟨rfl, h.2.1, h.2.2.1⟩
